import Mathlib

set_option linter.unusedVariables false
set_option linter.unnecessarySeqFocus false

/-! Verification of the SecretChamber broadcast chat server
    (src/oserveroserver/server.c).  The session registry, role admission,
    broadcast fan-out and SQLite-backed history of the C code are given a
    shallow embedding as pure functions over explicit state; transport
    writes are recorded as a list of observable outputs. -/

/-- Text payloads are modelled as lists of characters. -/
abbrev Str := List Char

/-- Session role.  The C code stores the role as one of the strings WRITER,
    READER or NONE and compares with strcasecmp; since those are the only
    three values ever written, the role is modelled as an enumeration. -/
inductive Role where
  | none
  | reader
  | writer
deriving DecidableEq

/-- One registered session, mirroring struct client in server.c: the
    connection handle wsi (opaque, modelled as Nat), the display name and
    the role.  The next pointer is the containing list. -/
structure Client where
  wsi : Nat
  username : Str
  role : Role
deriving DecidableEq

/-- The global singly linked list clients_head. -/
abbrev Registry := List Client

def MAX_NAME_LEN : Nat := 64
def MAX_MSG_LEN : Nat := 4096
def HISTORY_LIMIT : Nat := 500

/-- add_client: prepend a new session with name Anonymous and no role. -/
def add_client (wsi : Nat) (cs : Registry) : Registry :=
  { wsi := wsi, username := "Anonymous".data, role := Role.none } :: cs

/-- remove_client: unlink and free the first node whose handle matches. -/
def remove_client (wsi : Nat) : Registry → Registry
  | [] => []
  | c :: rest => if c.wsi = wsi then rest else c :: remove_client wsi rest

/-- find_client: the first node whose handle matches, if any. -/
def find_client (wsi : Nat) : Registry → Option Client
  | [] => Option.none
  | c :: rest => if c.wsi = wsi then Option.some c else find_client wsi rest

/-- The C code mutates the node returned by find_client in place; here the
    same effect is the application of f to the first matching node. -/
def update_client (wsi : Nat) (f : Client → Client) : Registry → Registry
  | [] => []
  | c :: rest => if c.wsi = wsi then f c :: rest else c :: update_client wsi f rest

/-- count_roles: one pass over the list counting (readers, writers). -/
def count_roles : Registry → Nat × Nat
  | [] => (0, 0)
  | c :: rest =>
    let p := count_roles rest
    if c.role = Role.writer then (p.1, p.2 + 1)
    else if c.role = Role.reader then (p.1 + 1, p.2)
    else p

def active_readers (cs : Registry) : Nat := (count_roles cs).1

def active_writers (cs : Registry) : Nat := (count_roles cs).2

def can_admit_as_reader (cs : Registry) : Bool := active_writers cs == 0

def can_admit_as_writer (cs : Registry) : Bool :=
  active_writers cs == 0 && active_readers cs == 0

/-- collect_wsis: a point-in-time snapshot of all live handles, in list
    order, used by broadcast_text for iteration outside the lock. -/
def collect_wsis (cs : Registry) : List Nat := cs.map Client.wsi

/-- The messages table in insertion order, oldest row first; each row holds
    (username, message).  init_db deletes all rows, so a run starts empty. -/
abbrev History := List (Str × Str)

/-- Row formatting "%s: %s" used by db_get_history_snapshot. -/
def fmt_record (u m : Str) : Str := u ++ ": ".data ++ m

/-- The strcat loop of db_get_history_snapshot: rows joined by a newline
    between consecutive rows, with no trailing newline. -/
def join_rows : List Str → Str
  | [] => []
  | [r] => r
  | r :: s :: rest => r ++ '\n' :: join_rows (s :: rest)

/-- db_get_history_snapshot: the select statement returns at most limit
    rows newest first (ORDER BY id DESC LIMIT ?); the output loop then
    walks the collected row array backwards, so the result is the limit
    most recent rows, formatted and joined oldest first. -/
def db_get_history_snapshot (limit : Nat) (h : History) : Str :=
  join_rows (((h.reverse.take limit).map (fun p => fmt_record p.1 p.2)).reverse)

/-- Observable transport writes: send_to_client unicasts, and
    broadcast_text fan-outs recorded with the handle snapshot collected at
    the moment of the call. -/
inductive Output where
  | sendTo (wsi : Nat) (msg : Str)
  | broadcast (wsis : List Nat) (msg : Str)
deriving DecidableEq

structure ServerState where
  clients : Registry
  history : History
deriving DecidableEq

/-- The SYSTEM_COUNTS:%d:%d payload with (readers, writers) as printed by
    broadcast_counts. -/
def sys_counts (cs : Registry) : Str :=
  ("SYSTEM_COUNTS:" ++ Nat.repr (active_readers cs) ++ ":" ++
    Nat.repr (active_writers cs)).data

/-- broadcast_counts: broadcast the counts payload to the current handles. -/
def broadcast_counts (cs : Registry) : Output :=
  Output.broadcast (collect_wsis cs) (sys_counts cs)

/-- The pointer walk in ws_callback skipping leading spaces and tabs. -/
def strip_ws (s : Str) : Str := s.dropWhile (fun ch => ch == ' ' || ch == '\t')

/-- strcasecmp equality of two texts. -/
def strEqCI (a b : Str) : Bool := a.map Char.toLower == b.map Char.toLower

/-- The snprintf into the 64 byte username buffer keeps at most 63 units. -/
def set_username (u : Str) (cl : Client) : Client :=
  { cl with username := u.take (MAX_NAME_LEN - 1) }

def set_role (r : Role) (cl : Client) : Client := { cl with role := r }

/-- Body of the LWS_CALLBACK_RECEIVE case of ws_callback after the client
    lookup succeeded with c.  appendOk is the outcome of the sqlite insert
    (db_insert_message returning 0); on failure the code only logs and
    still broadcasts. -/
def handle_receive_client (wsi : Nat) (msg : Str) (appendOk : Bool)
    (st : ServerState) (c : Client) : ServerState × List Output :=
  if ("username:".data).isPrefixOf msg then
    ({ st with clients :=
        update_client wsi (set_username (strip_ws (msg.drop 9))) st.clients }, [])
  else if ("role:".data).isPrefixOf msg then
    if strEqCI (strip_ws (msg.drop 5)) ("WRITER".data) then
      if can_admit_as_writer st.clients then
        let clients' := update_client wsi (set_role Role.writer) st.clients
        ({ st with clients := clients' },
         [Output.sendTo wsi (db_get_history_snapshot HISTORY_LIMIT st.history),
          Output.sendTo wsi ("ROLE_CONFIRMED:writer".data),
          Output.broadcast (collect_wsis clients')
            (("System: ".data ++ c.username ++ " joined as Writer".data).take 199),
          broadcast_counts clients'])
      else
        (st, [Output.sendTo wsi ("ROLE_DENIED:A writer or readers are already inside.".data),
              broadcast_counts st.clients])
    else
      if can_admit_as_reader st.clients then
        let clients' := update_client wsi (set_role Role.reader) st.clients
        ({ st with clients := clients' },
         [Output.sendTo wsi (db_get_history_snapshot HISTORY_LIMIT st.history),
          Output.sendTo wsi ("ROLE_CONFIRMED:reader".data),
          Output.broadcast (collect_wsis clients')
            (("System: ".data ++ c.username ++ " joined as Reader".data).take 199),
          broadcast_counts clients'])
      else
        (st, [Output.sendTo wsi ("ROLE_DENIED:A writer is already inside.".data),
              broadcast_counts st.clients])
  else if ("get_history".data).isPrefixOf msg then
    (st, [Output.sendTo wsi (db_get_history_snapshot HISTORY_LIMIT st.history)])
  else
    if c.role ≠ Role.writer then
      (st, [Output.sendTo wsi ("System: You are a READER — you cannot send messages.".data)])
    else
      let line := ((if c.username.isEmpty then "Anon".data else c.username)
                    ++ ": ".data ++ msg).take (MAX_MSG_LEN - 1)
      let st' := if appendOk
                 then { st with history := st.history ++ [(c.username, msg)] }
                 else st
      (st', [Output.broadcast (collect_wsis st'.clients) line])

/-- LWS_CALLBACK_RECEIVE: look the sending client up; frames from unknown
    handles are dropped. -/
def handle_receive (wsi : Nat) (msg : Str) (appendOk : Bool)
    (st : ServerState) : ServerState × List Output :=
  match find_client wsi st.clients with
  | Option.none => (st, [])
  | Option.some c => handle_receive_client wsi msg appendOk st c

/-- LWS_CALLBACK_CLOSED: for a writer the departure notice is built from
    the pre-removal username, the node is removed, and only then are the
    notice and the updated counts broadcast (both to the post-removal
    handle snapshot); everyone else is removed followed by the counts
    broadcast alone. -/
def handle_close (wsi : Nat) (st : ServerState) : ServerState × List Output :=
  match find_client wsi st.clients with
  | Option.some c =>
    if c.role = Role.writer then
      let sysmsg := ("System: ".data ++ c.username ++ " disconnected.".data).take 199
      let clients' := remove_client wsi st.clients
      ({ st with clients := clients' },
       [Output.broadcast (collect_wsis clients') sysmsg,
        broadcast_counts clients'])
    else
      let clients' := remove_client wsi st.clients
      ({ st with clients := clients' }, [broadcast_counts clients'])
  | Option.none =>
    let clients' := remove_client wsi st.clients
    ({ st with clients := clients' }, [broadcast_counts clients'])

/-- Session events delivered by the transport. -/
inductive Event where
  | connect (wsi : Nat)
  | receive (wsi : Nat) (msg : Str) (appendOk : Bool)
  | close (wsi : Nat)

/-- ws_callback, restricted to the state transition of one event. -/
def stepState (st : ServerState) (e : Event) : ServerState :=
  match e with
  | Event.connect w => { st with clients := add_client w st.clients }
  | Event.receive w m ak => (handle_receive w m ak st).1
  | Event.close w => (handle_close w st).1

/-- Process start: empty registry, and init_db clears the messages table. -/
def init_state : ServerState := { clients := [], history := [] }

/-- The state reached after a sequence of session events. -/
def run (evs : List Event) : ServerState := evs.foldl stepState init_state

/-! ### Counting lemmas -/

theorem active_writers_nil : active_writers [] = 0 := rfl

theorem active_readers_nil : active_readers [] = 0 := rfl

theorem active_writers_cons (c : Client) (rest : Registry) :
    active_writers (c :: rest) =
      (if c.role = Role.writer then 1 else 0) + active_writers rest := by
  cases hr : c.role <;> simp [active_writers, count_roles, hr] <;> omega

theorem active_readers_cons (c : Client) (rest : Registry) :
    active_readers (c :: rest) =
      (if c.role = Role.reader then 1 else 0) + active_readers rest := by
  cases hr : c.role <;> simp [active_readers, count_roles, hr] <;> omega

theorem active_writers_add_client (w : Nat) (cs : Registry) :
    active_writers (add_client w cs) = active_writers cs := by
  simp [add_client, active_writers_cons]

theorem active_readers_add_client (w : Nat) (cs : Registry) :
    active_readers (add_client w cs) = active_readers cs := by
  simp [add_client, active_readers_cons]

theorem count_roles_update_role_eq (w : Nat) (f : Client → Client)
    (hf : ∀ cl, (f cl).role = cl.role) (cs : Registry) :
    count_roles (update_client w f cs) = count_roles cs := by
  induction cs with
  | nil => rfl
  | cons c rest ih =>
    by_cases h : c.wsi = w
    · simp only [update_client, if_pos h]
      cases hr : c.role <;> simp [count_roles, hf, hr]
    · simp only [update_client, if_neg h]
      cases hr : c.role <;> simp [count_roles, hf, hr, ih]

theorem active_writers_update_role_eq (w : Nat) (f : Client → Client)
    (hf : ∀ cl, (f cl).role = cl.role) (cs : Registry) :
    active_writers (update_client w f cs) = active_writers cs := by
  unfold active_writers
  rw [count_roles_update_role_eq w f hf cs]

theorem active_readers_update_role_eq (w : Nat) (f : Client → Client)
    (hf : ∀ cl, (f cl).role = cl.role) (cs : Registry) :
    active_readers (update_client w f cs) = active_readers cs := by
  unfold active_readers
  rw [count_roles_update_role_eq w f hf cs]

theorem active_writers_remove_le (w : Nat) (cs : Registry) :
    active_writers (remove_client w cs) ≤ active_writers cs := by
  induction cs with
  | nil => simp [remove_client]
  | cons c rest ih =>
    by_cases h : c.wsi = w
    · simp only [remove_client, if_pos h, active_writers_cons]
      split <;> omega
    · simp only [remove_client, if_neg h, active_writers_cons]
      split <;> omega

theorem active_readers_remove_le (w : Nat) (cs : Registry) :
    active_readers (remove_client w cs) ≤ active_readers cs := by
  induction cs with
  | nil => simp [remove_client]
  | cons c rest ih =>
    by_cases h : c.wsi = w
    · simp only [remove_client, if_pos h, active_readers_cons]
      split <;> omega
    · simp only [remove_client, if_neg h, active_readers_cons]
      split <;> omega

theorem all_none_of_counts_zero (cs : Registry)
    (hw : active_writers cs = 0) (hr : active_readers cs = 0) :
    ∀ cl ∈ cs, cl.role = Role.none := by
  induction cs with
  | nil => intro cl h; simp at h
  | cons c rest ih =>
    rw [active_writers_cons] at hw
    rw [active_readers_cons] at hr
    have hcw : ¬(c.role = Role.writer) := by
      intro h; rw [if_pos h] at hw; omega
    have hcr : ¬(c.role = Role.reader) := by
      intro h; rw [if_pos h] at hr; omega
    have hw1 : active_writers rest = 0 := by rw [if_neg hcw] at hw; omega
    have hr1 : active_readers rest = 0 := by rw [if_neg hcr] at hr; omega
    intro cl hcl
    rcases List.mem_cons.mp hcl with rfl | hcl
    · cases h : cl.role
      · rfl
      · exact absurd h hcr
      · exact absurd h hcw
    · exact ih hw1 hr1 cl hcl

theorem counts_zero_of_all_none (cs : Registry)
    (hall : ∀ cl ∈ cs, cl.role = Role.none) :
    active_writers cs = 0 ∧ active_readers cs = 0 := by
  induction cs with
  | nil => exact ⟨rfl, rfl⟩
  | cons c rest ih =>
    have hc := hall c (List.mem_cons_self c rest)
    obtain ⟨ih1, ih2⟩ := ih (fun cl h => hall cl (List.mem_cons_of_mem c h))
    rw [active_writers_cons, active_readers_cons, hc]
    simp [ih1, ih2]

theorem counts_update_set_writer (w : Nat) (cs : Registry)
    (hall : ∀ cl ∈ cs, cl.role = Role.none) :
    active_writers (update_client w (set_role Role.writer) cs) ≤ 1 ∧
    active_readers (update_client w (set_role Role.writer) cs) = 0 := by
  induction cs with
  | nil => exact ⟨Nat.zero_le 1, rfl⟩
  | cons c rest ih =>
    have hc : c.role = Role.none := hall c (List.mem_cons_self c rest)
    have hrest : ∀ cl ∈ rest, cl.role = Role.none :=
      fun cl h => hall cl (List.mem_cons_of_mem c h)
    obtain ⟨hrw, hrr⟩ := counts_zero_of_all_none rest hrest
    by_cases h : c.wsi = w
    · simp only [update_client, if_pos h]
      rw [active_writers_cons, active_readers_cons]
      simp [set_role, hrw, hrr]
    · simp only [update_client, if_neg h]
      rw [active_writers_cons, active_readers_cons, hc]
      obtain ⟨ih1, ih2⟩ := ih hrest
      simp [ih1, ih2]

theorem writers_update_set_reader (w : Nat) (cs : Registry)
    (hw : active_writers cs = 0) :
    active_writers (update_client w (set_role Role.reader) cs) = 0 := by
  induction cs with
  | nil => rfl
  | cons c rest ih =>
    rw [active_writers_cons] at hw
    have hcw : ¬(c.role = Role.writer) := by
      intro h; rw [if_pos h] at hw; omega
    have hw1 : active_writers rest = 0 := by rw [if_neg hcw] at hw; omega
    by_cases h : c.wsi = w
    · simp only [update_client, if_pos h]
      rw [active_writers_cons]
      simp [set_role, hw1]
    · simp only [update_client, if_neg h]
      rw [active_writers_cons, if_neg hcw, ih hw1]

/-! ### The role invariant and its preservation -/

/-- Invariants I1 and I2 stated over the counts of count_roles. -/
def RolesInvariant (cs : Registry) : Prop :=
  active_writers cs ≤ 1 ∧ (active_writers cs = 0 ∨ active_readers cs = 0)

theorem rolesInvariant_remove (w : Nat) (cs : Registry) (h : RolesInvariant cs) :
    RolesInvariant (remove_client w cs) := by
  obtain ⟨h1, h2⟩ := h
  have hw := active_writers_remove_le w cs
  have hr := active_readers_remove_le w cs
  constructor
  · omega
  · rcases h2 with h2 | h2
    · left; omega
    · right; omega

/-! ### Frame classification lemmas -/

theorem handle_receive_some (wsi : Nat) (msg : Str) (ak : Bool) (st : ServerState)
    (c : Client) (hc : find_client wsi st.clients = Option.some c) :
    handle_receive wsi msg ak st = handle_receive_client wsi msg ak st c := by
  unfold handle_receive
  rw [hc]

theorem username_prefix_of_role (v : Str) :
    ("username:".data).isPrefixOf ("role:".data ++ v) = false := rfl

theorem role_prefix_of_role (v : Str) :
    ("role:".data).isPrefixOf ("role:".data ++ v) = true := by
  simp [List.isPrefixOf]

theorem drop5_role (v : Str) : ("role:".data ++ v).drop 5 = v := rfl

theorem username_prefix_of_username (v : Str) :
    ("username:".data).isPrefixOf ("username:".data ++ v) = true := by
  simp [List.isPrefixOf]

theorem drop9_username (v : Str) : ("username:".data ++ v).drop 9 = v := rfl

theorem username_prefix_of_gh :
    ("username:".data).isPrefixOf ("get_history".data) = false := by decide

theorem role_prefix_of_gh :
    ("role:".data).isPrefixOf ("get_history".data) = false := by decide

theorem gh_prefix_of_gh :
    ("get_history".data).isPrefixOf ("get_history".data) = true := by decide

theorem ite_bcond_true {α : Sort _} (p : Bool) (hp : p = true)
    (a b : α) : (if p = true then a else b) = a := by
  subst hp; rfl

theorem ite_bcond_false {α : Sort _} (p : Bool) (hp : p = false)
    (a b : α) : (if p = true then a else b) = b := by
  subst hp; rfl

theorem can_admit_as_writer_iff (cs : Registry) :
    can_admit_as_writer cs = true ↔
      (active_writers cs = 0 ∧ active_readers cs = 0) := by
  simp [can_admit_as_writer, Bool.and_eq_true, beq_iff_eq]

theorem can_admit_as_reader_iff (cs : Registry) :
    can_admit_as_reader cs = true ↔ active_writers cs = 0 := by
  simp [can_admit_as_reader, beq_iff_eq]

/-- Complete characterization of a role request: how the request text is
    classified and what the four grant and deny cases produce. -/
theorem handle_role_request (wsi : Nat) (v : Str) (ak : Bool) (st : ServerState)
    (c : Client) (hc : find_client wsi st.clients = Option.some c) :
    handle_receive wsi ("role:".data ++ v) ak st =
      (if strEqCI (strip_ws v) ("WRITER".data) = true then
        (if active_writers st.clients = 0 ∧ active_readers st.clients = 0 then
          ({ st with clients := update_client wsi (set_role Role.writer) st.clients },
           [Output.sendTo wsi (db_get_history_snapshot HISTORY_LIMIT st.history),
            Output.sendTo wsi ("ROLE_CONFIRMED:writer".data),
            Output.broadcast (collect_wsis (update_client wsi (set_role Role.writer) st.clients))
              (("System: ".data ++ c.username ++ " joined as Writer".data).take 199),
            broadcast_counts (update_client wsi (set_role Role.writer) st.clients)])
        else
          (st, [Output.sendTo wsi ("ROLE_DENIED:A writer or readers are already inside.".data),
                broadcast_counts st.clients]))
      else
        (if active_writers st.clients = 0 then
          ({ st with clients := update_client wsi (set_role Role.reader) st.clients },
           [Output.sendTo wsi (db_get_history_snapshot HISTORY_LIMIT st.history),
            Output.sendTo wsi ("ROLE_CONFIRMED:reader".data),
            Output.broadcast (collect_wsis (update_client wsi (set_role Role.reader) st.clients))
              (("System: ".data ++ c.username ++ " joined as Reader".data).take 199),
            broadcast_counts (update_client wsi (set_role Role.reader) st.clients)])
        else
          (st, [Output.sendTo wsi ("ROLE_DENIED:A writer is already inside.".data),
                broadcast_counts st.clients]))) := by
  rw [handle_receive_some wsi _ ak st c hc]
  unfold handle_receive_client
  rw [ite_bcond_false _ (username_prefix_of_role v),
      ite_bcond_true _ (role_prefix_of_role v), drop5_role v]
  by_cases hciw : strEqCI (strip_ws v) ("WRITER".data) = true
  · rw [if_pos hciw, if_pos hciw]
    by_cases hadm : active_writers st.clients = 0 ∧ active_readers st.clients = 0
    · rw [if_pos ((can_admit_as_writer_iff st.clients).mpr hadm), if_pos hadm]
    · rw [if_neg (fun h => hadm ((can_admit_as_writer_iff st.clients).mp h)), if_neg hadm]
  · rw [if_neg hciw, if_neg hciw]
    by_cases hadm : active_writers st.clients = 0
    · rw [if_pos ((can_admit_as_reader_iff st.clients).mpr hadm), if_pos hadm]
    · rw [if_neg (fun h => hadm ((can_admit_as_reader_iff st.clients).mp h)), if_neg hadm]

/-! ### Registry shape of each receive branch, and invariant preservation -/

theorem handle_receive_client_clients (wsi : Nat) (msg : Str) (ak : Bool)
    (st : ServerState) (c : Client) :
    ((handle_receive_client wsi msg ak st c).1).clients = st.clients ∨
    (∃ u, ((handle_receive_client wsi msg ak st c).1).clients =
        update_client wsi (set_username u) st.clients) ∨
    (can_admit_as_writer st.clients = true ∧
      ((handle_receive_client wsi msg ak st c).1).clients =
        update_client wsi (set_role Role.writer) st.clients) ∨
    (can_admit_as_reader st.clients = true ∧
      ((handle_receive_client wsi msg ak st c).1).clients =
        update_client wsi (set_role Role.reader) st.clients) := by
  unfold handle_receive_client
  cases h1 : ("username:".data).isPrefixOf msg with
  | true => exact Or.inr (Or.inl ⟨_, rfl⟩)
  | false =>
    cases h2 : ("role:".data).isPrefixOf msg with
    | true =>
      cases h3 : strEqCI (strip_ws (msg.drop 5)) ("WRITER".data) with
      | true =>
        cases h4 : can_admit_as_writer st.clients with
        | true => exact Or.inr (Or.inr (Or.inl ⟨rfl, rfl⟩))
        | false => exact Or.inl rfl
      | false =>
        cases h4 : can_admit_as_reader st.clients with
        | true => exact Or.inr (Or.inr (Or.inr ⟨rfl, rfl⟩))
        | false => exact Or.inl rfl
    | false =>
      cases h3 : ("get_history".data).isPrefixOf msg with
      | true => exact Or.inl rfl
      | false =>
        by_cases h4 : c.role = Role.writer
        · rw [if_neg (not_not_intro h4)]
          cases ak
          · exact Or.inl rfl
          · exact Or.inl rfl
        · rw [if_pos h4]
          exact Or.inl rfl

theorem rolesInvariant_receive (wsi : Nat) (msg : Str) (ak : Bool) (st : ServerState)
    (h : RolesInvariant st.clients) :
    RolesInvariant ((handle_receive wsi msg ak st).1).clients := by
  unfold handle_receive
  cases hf : find_client wsi st.clients with
  | none => exact h
  | some c =>
    rcases handle_receive_client_clients wsi msg ak st c with
      hcl | ⟨u, hcl⟩ | ⟨ha, hcl⟩ | ⟨ha, hcl⟩
    · rw [hcl]; exact h
    · rw [hcl]
      unfold RolesInvariant
      rw [active_writers_update_role_eq wsi (set_username u) (fun cl => rfl) st.clients,
          active_readers_update_role_eq wsi (set_username u) (fun cl => rfl) st.clients]
      exact h
    · rw [hcl]
      obtain ⟨hw0, hr0⟩ := (can_admit_as_writer_iff st.clients).mp ha
      obtain ⟨g1, g2⟩ := counts_update_set_writer wsi st.clients
        (all_none_of_counts_zero st.clients hw0 hr0)
      exact ⟨g1, Or.inr g2⟩
    · rw [hcl]
      have hw0 := (can_admit_as_reader_iff st.clients).mp ha
      have g := writers_update_set_reader wsi st.clients hw0
      exact ⟨by omega, Or.inl g⟩

theorem handle_close_clients (wsi : Nat) (st : ServerState) :
    ((handle_close wsi st).1).clients = remove_client wsi st.clients := by
  unfold handle_close
  cases find_client wsi st.clients with
  | none => rfl
  | some c =>
    cases c with
    | mk w u r =>
      cases r
      · rfl
      · rfl
      · rfl

theorem rolesInvariant_step (st : ServerState) (e : Event)
    (h : RolesInvariant st.clients) : RolesInvariant (stepState st e).clients := by
  cases e with
  | connect w =>
    show RolesInvariant (add_client w st.clients)
    unfold RolesInvariant
    rw [active_writers_add_client, active_readers_add_client]
    exact h
  | receive w m ak => exact rolesInvariant_receive w m ak st h
  | close w =>
    show RolesInvariant ((handle_close w st).1).clients
    rw [handle_close_clients]
    exact rolesInvariant_remove w st.clients h

theorem rolesInvariant_run_aux (evs : List Event) (st : ServerState)
    (h : RolesInvariant st.clients) :
    RolesInvariant (evs.foldl stepState st).clients := by
  induction evs generalizing st with
  | nil => exact h
  | cons e rest ih => exact ih (stepState st e) (rolesInvariant_step st e h)

/-- Claim C1: in every state reachable by any sequence of session events
    (connect, received frames including role requests and chat, close),
    at most one registered session holds the Writer role, and whenever the
    Writer count is positive the Reader count is zero, so Writer and
    Reader never coexist while multiple Readers may. -/
theorem C1_role_mutual_exclusion (evs : List Event) :
    active_writers (run evs).clients ≤ 1 ∧
    (active_writers (run evs).clients = 0 ∨ active_readers (run evs).clients = 0) :=
  rolesInvariant_run_aux evs init_state ⟨Nat.zero_le 1, Or.inl rfl⟩

/-! ### Handle snapshots and lookups under updates -/

theorem collect_wsis_update (w : Nat) (f : Client → Client)
    (hf : ∀ cl, (f cl).wsi = cl.wsi) (cs : Registry) :
    collect_wsis (update_client w f cs) = collect_wsis cs := by
  induction cs with
  | nil => rfl
  | cons c rest ih =>
    by_cases h : c.wsi = w
    · simp [update_client, if_pos h, collect_wsis, hf]
    · simp only [update_client, if_neg h, collect_wsis, List.map_cons]
      rw [show List.map Client.wsi (update_client w f rest) = collect_wsis (update_client w f rest) from rfl,
          ih]
      rfl

theorem mem_collect_wsis_of_find (w : Nat) (cs : Registry) (c : Client)
    (hc : find_client w cs = Option.some c) : w ∈ collect_wsis cs := by
  induction cs with
  | nil => simp [find_client] at hc
  | cons a rest ih =>
    simp only [find_client] at hc
    by_cases h : a.wsi = w
    · simp [collect_wsis, h]
    · rw [if_neg h] at hc
      exact List.mem_cons_of_mem _ (ih hc)

/-! ### Sample states for concrete witnesses -/

/-- A registry holding a Writer session (handle 0) and a roleless
    session (handle 1). -/
def clientA : Client := { wsi := 0, username := "Alice".data, role := Role.writer }

def clientB : Client := { wsi := 1, username := "Bob".data, role := Role.none }

def sampleSt : ServerState := { clients := [clientA, clientB], history := [] }

/-- A registry holding a single roleless session (handle 2). -/
def clientC : Client := { wsi := 2, username := "Cara".data, role := Role.none }

def sampleSt2 : ServerState := { clients := [clientC], history := [] }

/-! ### Claims C2, C3, C4 -/

/-- Claim C2: a role request is classified as a Writer request exactly when
    the value, after stripping leading spaces and tabs, equals WRITER up to
    case, and as a Reader request for any other value; a Writer request is
    granted exactly when the registry has zero Writers and zero Readers,
    and a Reader request exactly when it has zero Writers.  The statement
    exhibits the full handler result in each of the four cases. -/
theorem C2_admission_decision (st : ServerState) (wsi : Nat) (v : Str)
    (ak : Bool) (c : Client) (hc : find_client wsi st.clients = Option.some c) :
    handle_receive wsi ("role:".data ++ v) ak st =
      (if strEqCI (strip_ws v) ("WRITER".data) = true then
        (if active_writers st.clients = 0 ∧ active_readers st.clients = 0 then
          ({ st with clients := update_client wsi (set_role Role.writer) st.clients },
           [Output.sendTo wsi (db_get_history_snapshot HISTORY_LIMIT st.history),
            Output.sendTo wsi ("ROLE_CONFIRMED:writer".data),
            Output.broadcast (collect_wsis (update_client wsi (set_role Role.writer) st.clients))
              (("System: ".data ++ c.username ++ " joined as Writer".data).take 199),
            broadcast_counts (update_client wsi (set_role Role.writer) st.clients)])
        else
          (st, [Output.sendTo wsi ("ROLE_DENIED:A writer or readers are already inside.".data),
                broadcast_counts st.clients]))
      else
        (if active_writers st.clients = 0 then
          ({ st with clients := update_client wsi (set_role Role.reader) st.clients },
           [Output.sendTo wsi (db_get_history_snapshot HISTORY_LIMIT st.history),
            Output.sendTo wsi ("ROLE_CONFIRMED:reader".data),
            Output.broadcast (collect_wsis (update_client wsi (set_role Role.reader) st.clients))
              (("System: ".data ++ c.username ++ " joined as Reader".data).take 199),
            broadcast_counts (update_client wsi (set_role Role.reader) st.clients)])
        else
          (st, [Output.sendTo wsi ("ROLE_DENIED:A writer is already inside.".data),
                broadcast_counts st.clients]))) :=
  handle_role_request wsi v ak st c hc

/-- Witness for C2 at a concrete input: with a Writer already registered,
    a Writer request from the roleless session is denied and followed by
    the counts broadcast. -/
theorem C2_admission_decision_witness :
    find_client 1 sampleSt.clients = Option.some clientB ∧
    handle_receive 1 ("role:".data ++ "writer".data) true sampleSt =
      (sampleSt,
       [Output.sendTo 1 ("ROLE_DENIED:A writer or readers are already inside.".data),
        Output.broadcast [0, 1] ("SYSTEM_COUNTS:0:1".data)]) :=
  ⟨by decide, C2_admission_decision sampleSt 1 ("writer".data) true clientB (by decide)⟩

/-- Claim C3: for every granted role request the role is set and the
    outputs are exactly, in order: the private history snapshot (bounded
    to the 500 most recent records) unicast to the requester first, then
    the matching ROLE_CONFIRMED unicast, then the join notice broadcast,
    then the updated role counts broadcast; both broadcasts go to the full
    handle snapshot, which is unchanged by the role update and contains
    the requester. -/
theorem C3_grant_sequence (st : ServerState) (wsi : Nat) (v : Str)
    (ak : Bool) (c : Client) (hc : find_client wsi st.clients = Option.some c)
    (hgrant : if strEqCI (strip_ws v) ("WRITER".data) = true
              then active_writers st.clients = 0 ∧ active_readers st.clients = 0
              else active_writers st.clients = 0) :
    (handle_receive wsi ("role:".data ++ v) ak st =
      ({ st with clients := (update_client wsi
           (set_role (if strEqCI (strip_ws v) ("WRITER".data) = true
                      then Role.writer else Role.reader)) st.clients) },
       [Output.sendTo wsi (db_get_history_snapshot 500 st.history),
        Output.sendTo wsi (if strEqCI (strip_ws v) ("WRITER".data) = true
          then ("ROLE_CONFIRMED:writer".data) else ("ROLE_CONFIRMED:reader".data)),
        Output.broadcast
          (collect_wsis (update_client wsi
            (set_role (if strEqCI (strip_ws v) ("WRITER".data) = true
                       then Role.writer else Role.reader)) st.clients))
          (("System: ".data ++ c.username ++
            (if strEqCI (strip_ws v) ("WRITER".data) = true
             then " joined as Writer".data else " joined as Reader".data)).take 199),
        Output.broadcast
          (collect_wsis (update_client wsi
            (set_role (if strEqCI (strip_ws v) ("WRITER".data) = true
                       then Role.writer else Role.reader)) st.clients))
          (sys_counts (update_client wsi
            (set_role (if strEqCI (strip_ws v) ("WRITER".data) = true
                       then Role.writer else Role.reader)) st.clients))])) ∧
    collect_wsis (update_client wsi
      (set_role (if strEqCI (strip_ws v) ("WRITER".data) = true
                 then Role.writer else Role.reader)) st.clients) =
      collect_wsis st.clients ∧
    wsi ∈ collect_wsis st.clients := by
  refine ⟨?_, collect_wsis_update wsi
            (set_role (if strEqCI (strip_ws v) ("WRITER".data) = true
                       then Role.writer else Role.reader))
            (fun cl => rfl) st.clients,
          mem_collect_wsis_of_find wsi st.clients c hc⟩
  rw [handle_role_request wsi v ak st c hc]
  rcases Bool.eq_false_or_eq_true (strEqCI (strip_ws v) ("WRITER".data)) with hciw | hciw
  · rw [ite_bcond_true _ hciw] at hgrant
    repeat rw [ite_bcond_true _ hciw]
    rw [if_pos hgrant]
    rfl
  · rw [ite_bcond_false _ hciw] at hgrant
    repeat rw [ite_bcond_false _ hciw]
    rw [if_pos hgrant]
    rfl

/-- Witness for C3 at a concrete input: a lone roleless session is granted
    Writer; it receives the empty history block first, then the
    confirmation, then the join notice and SYSTEM_COUNTS:0:1 broadcasts. -/
theorem C3_grant_sequence_witness :
    find_client 2 sampleSt2.clients = Option.some clientC ∧
    (if strEqCI (strip_ws ("writer".data)) ("WRITER".data) = true
     then active_writers sampleSt2.clients = 0 ∧ active_readers sampleSt2.clients = 0
     else active_writers sampleSt2.clients = 0) ∧
    ((handle_receive 2 ("role:".data ++ "writer".data) true sampleSt2 =
      ({ sampleSt2 with
          clients := [{ wsi := 2, username := "Cara".data, role := Role.writer }] },
       [Output.sendTo 2 [],
        Output.sendTo 2 ("ROLE_CONFIRMED:writer".data),
        Output.broadcast [2] ("System: Cara joined as Writer".data),
        Output.broadcast [2] ("SYSTEM_COUNTS:0:1".data)])) ∧
     ([2] : List Nat) = [2] ∧
     2 ∈ ([2] : List Nat)) :=
  ⟨by decide, by decide,
   C3_grant_sequence sampleSt2 2 ("writer".data) true clientC (by decide) (by decide)⟩

/-- Counterexample to claim C4 as stated: with a Writer registered at
    handle 0, a Writer request from the roleless session 1 is denied, yet
    the handler still broadcasts a SYSTEM_COUNTS update to all sessions
    (ws_callback calls broadcast_counts after the role branch regardless
    of the outcome), so a denied request is not broadcast free. -/
theorem C4_counterexample :
    Output.broadcast [0, 1] ("SYSTEM_COUNTS:0:1".data) ∈
      (handle_receive 1 ("role:".data ++ "writer".data) true sampleSt).2 := by decide

/-- Claim C4 (amended): a denied role request leaves the state unchanged
    and unicasts exactly one ROLE_DENIED message naming the conflict to
    the requester; no join notice or chat line is broadcast, but the
    handler does broadcast the unchanged SYSTEM_COUNTS line to all
    sessions afterwards, and that counts broadcast is the only one. -/
theorem C4_denied_request (st : ServerState) (wsi : Nat) (v : Str)
    (ak : Bool) (c : Client) (hc : find_client wsi st.clients = Option.some c)
    (hdw : strEqCI (strip_ws v) ("WRITER".data) = true →
           ¬(active_writers st.clients = 0 ∧ active_readers st.clients = 0))
    (hdr : strEqCI (strip_ws v) ("WRITER".data) = false →
           ¬(active_writers st.clients = 0)) :
    handle_receive wsi ("role:".data ++ v) ak st =
      (st, [Output.sendTo wsi
              (if strEqCI (strip_ws v) ("WRITER".data) = true
               then ("ROLE_DENIED:A writer or readers are already inside.".data)
               else ("ROLE_DENIED:A writer is already inside.".data)),
            Output.broadcast (collect_wsis st.clients) (sys_counts st.clients)]) := by
  rw [handle_role_request wsi v ak st c hc]
  rcases Bool.eq_false_or_eq_true (strEqCI (strip_ws v) ("WRITER".data)) with hciw | hciw
  · repeat rw [ite_bcond_true _ hciw]
    rw [if_neg (hdw hciw)]
    rfl
  · repeat rw [ite_bcond_false _ hciw]
    rw [if_neg (hdr hciw)]
    rfl

/-- Witness for the amended C4 at a concrete input: the denied Writer
    request of session 1 produces exactly the denial unicast and the
    counts broadcast, with the state unchanged. -/
theorem C4_denied_request_witness :
    find_client 1 sampleSt.clients = Option.some clientB ∧
    (strEqCI (strip_ws ("writer".data)) ("WRITER".data) = true →
      ¬(active_writers sampleSt.clients = 0 ∧ active_readers sampleSt.clients = 0)) ∧
    (strEqCI (strip_ws ("writer".data)) ("WRITER".data) = false →
      ¬(active_writers sampleSt.clients = 0)) ∧
    handle_receive 1 ("role:".data ++ "writer".data) true sampleSt =
      (sampleSt,
       [Output.sendTo 1 ("ROLE_DENIED:A writer or readers are already inside.".data),
        Output.broadcast [0, 1] ("SYSTEM_COUNTS:0:1".data)]) :=
  ⟨by decide, by decide, by decide,
   C4_denied_request sampleSt 1 ("writer".data) true clientB
     (by decide) (by decide) (by decide)⟩

/-! ### The chat path -/

/-- Characterization of a frame matching no command prefix: the chat
    branch of ws_callback. -/
theorem handle_chat_request (wsi : Nat) (msg : Str) (ak : Bool) (st : ServerState)
    (c : Client) (hc : find_client wsi st.clients = Option.some c)
    (h1 : ("username:".data).isPrefixOf msg = false)
    (h2 : ("role:".data).isPrefixOf msg = false)
    (h3 : ("get_history".data).isPrefixOf msg = false) :
    handle_receive wsi msg ak st =
      (if c.role = Role.writer then
        ((if ak then { st with history := st.history ++ [(c.username, msg)] } else st),
         [Output.broadcast (collect_wsis st.clients)
           (((if c.username.isEmpty then "Anon".data else c.username)
              ++ ": ".data ++ msg).take (MAX_MSG_LEN - 1))])
      else
        (st, [Output.sendTo wsi
                ("System: You are a READER — you cannot send messages.".data)])) := by
  rw [handle_receive_some wsi msg ak st c hc]
  unfold handle_receive_client
  rw [ite_bcond_false _ h1, ite_bcond_false _ h2, ite_bcond_false _ h3]
  by_cases h4 : c.role = Role.writer
  · rw [if_neg (not_not_intro h4), if_pos h4]
    cases ak
    · rfl
    · rfl
  · rw [if_pos h4, if_neg h4]

/-- Claim C5: a frame matching no command prefix sent by a session whose
    role is not Writer (Reader or None) changes nothing — the payload is
    neither broadcast to anyone nor appended to the history — and the
    sender receives exactly one rejection notice, with no SYSTEM_COUNTS
    update. -/
theorem C5_nonwriter_chat_rejected (st : ServerState) (wsi : Nat) (msg : Str)
    (ak : Bool) (c : Client) (hc : find_client wsi st.clients = Option.some c)
    (hrole : c.role ≠ Role.writer)
    (h1 : ("username:".data).isPrefixOf msg = false)
    (h2 : ("role:".data).isPrefixOf msg = false)
    (h3 : ("get_history".data).isPrefixOf msg = false) :
    handle_receive wsi msg ak st =
      (st, [Output.sendTo wsi
              ("System: You are a READER — you cannot send messages.".data)]) := by
  rw [handle_chat_request wsi msg ak st c hc h1 h2 h3, if_neg hrole]

/-- Witness for C5 at a concrete input: the roleless session 1 sends the
    chat payload hello; the state is unchanged and only the rejection
    notice is unicast back. -/
theorem C5_nonwriter_chat_rejected_witness :
    find_client 1 sampleSt.clients = Option.some clientB ∧
    clientB.role ≠ Role.writer ∧
    ("username:".data).isPrefixOf ("hello".data) = false ∧
    ("role:".data).isPrefixOf ("hello".data) = false ∧
    ("get_history".data).isPrefixOf ("hello".data) = false ∧
    handle_receive 1 ("hello".data) true sampleSt =
      (sampleSt, [Output.sendTo 1
                    ("System: You are a READER — you cannot send messages.".data)]) :=
  ⟨by decide, by decide, by decide, by decide, by decide,
   C5_nonwriter_chat_rejected sampleSt 1 ("hello".data) true clientB
     (by decide) (by decide) (by decide) (by decide) (by decide)⟩

/-- Claim C6: a chat payload from a Writer is broadcast to all live
    sessions as the formatted line <username>: <message>, both when the
    history append succeeds and when it fails; an append failure only
    skips the history change, leaving the registry and the delivery
    untouched. -/
theorem C6_writer_chat_broadcast (st : ServerState) (wsi : Nat) (msg : Str)
    (c : Client) (hc : find_client wsi st.clients = Option.some c)
    (hrole : c.role = Role.writer)
    (h1 : ("username:".data).isPrefixOf msg = false)
    (h2 : ("role:".data).isPrefixOf msg = false)
    (h3 : ("get_history".data).isPrefixOf msg = false)
    (hu : c.username ≠ [])
    (hlen : c.username.length + 2 + msg.length ≤ MAX_MSG_LEN - 1) :
    ((handle_receive wsi msg true st).2 =
      [Output.broadcast (collect_wsis st.clients) (c.username ++ ": ".data ++ msg)]) ∧
    ((handle_receive wsi msg false st).2 =
      [Output.broadcast (collect_wsis st.clients) (c.username ++ ": ".data ++ msg)]) ∧
    ((handle_receive wsi msg true st).1 =
      { st with history := st.history ++ [(c.username, msg)] }) ∧
    ((handle_receive wsi msg false st).1 = st) := by
  have hu' : c.username.isEmpty = false := by
    cases hun : c.username with
    | nil => exact absurd hun hu
    | cons a as => rfl
  have hline : ((if c.username.isEmpty then "Anon".data else c.username)
      ++ ": ".data ++ msg).take (MAX_MSG_LEN - 1) = c.username ++ ": ".data ++ msg := by
    rw [ite_bcond_false _ hu']
    apply List.take_of_length_le
    simp only [List.length_append, List.length_cons, List.length_nil]
    simp only [MAX_MSG_LEN] at hlen ⊢
    omega
  have key : ∀ ak : Bool, handle_receive wsi msg ak st =
      ((if ak then { st with history := st.history ++ [(c.username, msg)] } else st),
       [Output.broadcast (collect_wsis st.clients) (c.username ++ ": ".data ++ msg)]) := by
    intro ak
    rw [handle_chat_request wsi msg ak st c hc h1 h2 h3, if_pos hrole, hline]
  refine ⟨?_, ?_, ?_, ?_⟩
  · rw [key true]
  · rw [key false]
  · rw [key true]; rfl
  · rw [key false]; rfl

/-- Witness for C6 at a concrete input: the Writer session 0 sends hi;
    the line Alice: hi is broadcast to both sessions whether the append
    succeeds or fails, and only the success case grows the history. -/
theorem C6_writer_chat_broadcast_witness :
    find_client 0 sampleSt.clients = Option.some clientA ∧
    clientA.role = Role.writer ∧
    ("username:".data).isPrefixOf ("hi".data) = false ∧
    ("role:".data).isPrefixOf ("hi".data) = false ∧
    ("get_history".data).isPrefixOf ("hi".data) = false ∧
    clientA.username ≠ [] ∧
    clientA.username.length + 2 + ("hi".data).length ≤ MAX_MSG_LEN - 1 ∧
    (((handle_receive 0 ("hi".data) true sampleSt).2 =
        [Output.broadcast [0, 1] ("Alice: hi".data)]) ∧
     ((handle_receive 0 ("hi".data) false sampleSt).2 =
        [Output.broadcast [0, 1] ("Alice: hi".data)]) ∧
     ((handle_receive 0 ("hi".data) true sampleSt).1 =
        { sampleSt with history := [("Alice".data, "hi".data)] }) ∧
     ((handle_receive 0 ("hi".data) false sampleSt).1 = sampleSt)) :=
  ⟨by decide, by decide, by decide, by decide, by decide, by decide, by decide,
   C6_writer_chat_broadcast sampleSt 0 ("hi".data) clientA
     (by decide) (by decide) (by decide) (by decide) (by decide) (by decide) (by decide)⟩

/-! ### History snapshot ordering -/

theorem reverse_take_reverse {α : Type _} (l : List α) (n : Nat) :
    (l.reverse.take n).reverse = l.drop (l.length - n) := by
  rw [← List.rtake_eq_reverse_take_reverse]
  rfl

/-- Claim C7: the snapshot is the limit most recently appended records
    (all records if fewer exist), each formatted as <username>: <message>,
    joined by newlines oldest to newest — the code reverses the
    newest-first row order obtained from the store — and an empty store
    yields the empty result rather than an error. -/
theorem C7_snapshot_order (limit : Nat) (h : History) :
    db_get_history_snapshot limit h =
      join_rows ((h.drop (h.length - limit)).map (fun p => fmt_record p.1 p.2)) ∧
    db_get_history_snapshot limit [] = [] := by
  constructor
  · unfold db_get_history_snapshot
    rw [← List.map_reverse, reverse_take_reverse]
  · simp [db_get_history_snapshot, join_rows]

/-! ### The last snapshot line after an append -/

theorem join_rows_concat (ls : List Str) (a : Str) :
    join_rows (ls ++ [a]) =
      (if ls.isEmpty then a else join_rows ls ++ '\n' :: a) := by
  induction ls with
  | nil => rfl
  | cons x xs ih =>
    cases xs with
    | nil => rfl
    | cons y ys =>
      simp only [List.cons_append, join_rows, List.isEmpty_cons, List.append_eq] at ih ⊢
      rw [ih]
      simp [List.append_assoc]

theorem snapshot_append_last (n : Nat) (h : History) (u m : Str) :
    db_get_history_snapshot (n + 1) (h ++ [(u, m)]) = fmt_record u m ∨
    (∃ p, db_get_history_snapshot (n + 1) (h ++ [(u, m)]) =
        p ++ '\n' :: fmt_record u m) := by
  unfold db_get_history_snapshot
  rw [List.reverse_append]
  simp only [List.reverse_cons, List.reverse_nil, List.nil_append, List.singleton_append]
  rw [List.take_succ_cons, List.map_cons, List.reverse_cons, join_rows_concat]
  rcases Bool.eq_false_or_eq_true
      ((((h.reverse.take n).map (fun p => fmt_record p.1 p.2)).reverse).isEmpty)
    with he | he
  · left
    rw [ite_bcond_true _ he]
  · right
    exact ⟨_, by rw [ite_bcond_false _ he]⟩

/-- The get_history branch of ws_callback. -/
theorem handle_get_history (wsi : Nat) (ak : Bool) (st : ServerState) (c : Client)
    (hc : find_client wsi st.clients = Option.some c) :
    handle_receive wsi ("get_history".data) ak st =
      (st, [Output.sendTo wsi (db_get_history_snapshot HISTORY_LIMIT st.history)]) := by
  rw [handle_receive_some wsi _ ak st c hc]
  unfold handle_receive_client
  rw [ite_bcond_false _ username_prefix_of_gh, ite_bcond_false _ role_prefix_of_gh,
      ite_bcond_true _ gh_prefix_of_gh]

/-- Claim C8: a Writer chat message M accepted and persisted through the
    chat path, followed by get_history from any registered session, yields
    a non-empty snapshot whose last newline-delimited line is exactly the
    stored record <username>: M (built from the stored username), and that
    line contains M. -/
theorem C8_round_trip (st : ServerState) (wsi wsi2 : Nat) (msg : Str)
    (ak2 : Bool) (c c2 : Client)
    (hc : find_client wsi st.clients = Option.some c)
    (hrole : c.role = Role.writer)
    (h1 : ("username:".data).isPrefixOf msg = false)
    (h2 : ("role:".data).isPrefixOf msg = false)
    (h3 : ("get_history".data).isPrefixOf msg = false)
    (hc2 : find_client wsi2 st.clients = Option.some c2)
    (hnl1 : ¬ '\n' ∈ c.username) (hnl2 : ¬ '\n' ∈ msg) :
    (handle_receive wsi2 ("get_history".data) ak2 (handle_receive wsi msg true st).1 =
      ((handle_receive wsi msg true st).1,
       [Output.sendTo wsi2 (db_get_history_snapshot 500
          (st.history ++ [(c.username, msg)]))])) ∧
    db_get_history_snapshot 500 (st.history ++ [(c.username, msg)]) ≠ [] ∧
    ¬ '\n' ∈ (c.username ++ ": ".data ++ msg) ∧
    (db_get_history_snapshot 500 (st.history ++ [(c.username, msg)]) =
        c.username ++ ": ".data ++ msg ∨
     (∃ p, db_get_history_snapshot 500 (st.history ++ [(c.username, msg)]) =
        p ++ '\n' :: (c.username ++ ": ".data ++ msg))) ∧
    (∃ s t, s ++ msg ++ t = c.username ++ ": ".data ++ msg) := by
  have hst1 : (handle_receive wsi msg true st).1 =
      { st with history := st.history ++ [(c.username, msg)] } := by
    rw [handle_chat_request wsi msg true st c hc h1 h2 h3, if_pos hrole]
    rfl
  have hlast := snapshot_append_last 499 st.history c.username msg
  rw [show (499 : Nat) + 1 = 500 from rfl] at hlast
  refine ⟨?_, ?_, ?_, hlast, ?_⟩
  · rw [hst1]
    rw [handle_get_history wsi2 ak2
      { st with history := st.history ++ [(c.username, msg)] } c2 hc2]
    rfl
  · rcases hlast with heq | ⟨p, heq⟩
    · rw [heq]
      simp [fmt_record]
    · rw [heq]
      simp
  · intro hmem
    rcases List.mem_append.mp hmem with hm | hm
    · rcases List.mem_append.mp hm with hm2 | hm2
      · exact hnl1 hm2
      · simp at hm2
    · exact hnl2 hm
  · exact ⟨c.username ++ ": ".data, [], by simp [List.append_assoc]⟩

/-- Witness for C8 at a concrete input: Alice (Writer, handle 0) sends hi,
    Bob (handle 1) requests get_history and receives the one-line snapshot
    Alice: hi, whose last line is the stored record and contains hi. -/
theorem C8_round_trip_witness :
    find_client 0 sampleSt.clients = Option.some clientA ∧
    clientA.role = Role.writer ∧
    ("username:".data).isPrefixOf ("hi".data) = false ∧
    ("role:".data).isPrefixOf ("hi".data) = false ∧
    ("get_history".data).isPrefixOf ("hi".data) = false ∧
    find_client 1 sampleSt.clients = Option.some clientB ∧
    ¬ '\n' ∈ clientA.username ∧
    ¬ '\n' ∈ ("hi".data) ∧
    ((handle_receive 1 ("get_history".data) true (handle_receive 0 ("hi".data) true sampleSt).1 =
       ((handle_receive 0 ("hi".data) true sampleSt).1,
        [Output.sendTo 1 (db_get_history_snapshot 500
           (sampleSt.history ++ [(clientA.username, "hi".data)]))])) ∧
     db_get_history_snapshot 500 (sampleSt.history ++ [(clientA.username, "hi".data)]) ≠ [] ∧
     ¬ '\n' ∈ (clientA.username ++ ": ".data ++ "hi".data) ∧
     (db_get_history_snapshot 500 (sampleSt.history ++ [(clientA.username, "hi".data)]) =
         clientA.username ++ ": ".data ++ "hi".data ∨
      (∃ p, db_get_history_snapshot 500 (sampleSt.history ++ [(clientA.username, "hi".data)]) =
         p ++ '\n' :: (clientA.username ++ ": ".data ++ "hi".data))) ∧
     (∃ s t, s ++ "hi".data ++ t = clientA.username ++ ": ".data ++ "hi".data)) :=
  ⟨by decide, by decide, by decide, by decide, by decide, by decide, by decide, by decide,
   C8_round_trip sampleSt 0 1 ("hi".data) true clientA clientB
     (by decide) (by decide) (by decide) (by decide) (by decide) (by decide)
     (by decide) (by decide)⟩

/-! ### Session close -/

/-- Counterexample to claim C9 as stated: closing the Writer session 0
    removes it first and only then broadcasts the departure notice, so the
    notice goes to the post-removal handle snapshot [1] and not to the
    pre-removal snapshot [0, 1]; the claimed broadcast-before-removal
    order would have included handle 0. -/
theorem C9_counterexample :
    (handle_close 0 sampleSt).2 =
      [Output.broadcast [1] ("System: Alice disconnected.".data),
       Output.broadcast [1] ("SYSTEM_COUNTS:0:0".data)] ∧
    collect_wsis sampleSt.clients = [0, 1] ∧
    ¬ (0 : Nat) ∈ ([1] : List Nat) := by decide

/-- Claim C9 (amended): when a Writer session closes, the departure notice
    is computed from the pre-removal username, the session is removed, and
    the notice is then broadcast to the post-removal handles (the
    departing session itself is excluded), followed by the updated role
    counts broadcast; a non-Writer close is removal followed by the counts
    broadcast alone, with no departure notice. -/
theorem C9_close_sequence (st : ServerState) (wsi : Nat) (c : Client)
    (hc : find_client wsi st.clients = Option.some c) :
    handle_close wsi st =
      (if c.role = Role.writer then
        ({ st with clients := remove_client wsi st.clients },
         [Output.broadcast (collect_wsis (remove_client wsi st.clients))
            (("System: ".data ++ c.username ++ " disconnected.".data).take 199),
          Output.broadcast (collect_wsis (remove_client wsi st.clients))
            (sys_counts (remove_client wsi st.clients))])
      else
        ({ st with clients := remove_client wsi st.clients },
         [Output.broadcast (collect_wsis (remove_client wsi st.clients))
            (sys_counts (remove_client wsi st.clients))])) := by
  unfold handle_close
  rw [hc]
  rcases c with ⟨w, u, r⟩
  cases r
  · rfl
  · rfl
  · rfl

/-- Witness for the amended C9 at a concrete input: Alice the Writer
    closes; the notice carries her pre-removal name but is delivered only
    to the remaining handle 1, then SYSTEM_COUNTS:0:0 follows. -/
theorem C9_close_sequence_witness :
    find_client 0 sampleSt.clients = Option.some clientA ∧
    handle_close 0 sampleSt =
      ({ sampleSt with clients := [clientB] },
       [Output.broadcast [1] ("System: Alice disconnected.".data),
        Output.broadcast [1] ("SYSTEM_COUNTS:0:0".data)]) :=
  ⟨by decide, C9_close_sequence sampleSt 0 clientA (by decide)⟩

/-! ### Username updates -/

theorem find_client_update (w : Nat) (f : Client → Client)
    (hf : ∀ cl, (f cl).wsi = cl.wsi) (cs : Registry) :
    find_client w (update_client w f cs) = (find_client w cs).map f := by
  induction cs with
  | nil => rfl
  | cons a rest ih =>
    by_cases h : a.wsi = w
    · simp only [update_client, if_pos h, find_client]
      rw [if_pos (show (f a).wsi = w by rw [hf a]; exact h)]
      rfl
    · simp only [update_client, if_neg h, find_client]
      exact ih

/-- The username: branch of ws_callback. -/
theorem handle_username_request (wsi : Nat) (v : Str) (ak : Bool) (st : ServerState)
    (c : Client) (hc : find_client wsi st.clients = Option.some c) :
    handle_receive wsi ("username:".data ++ v) ak st =
      ({ st with clients :=
          update_client wsi (set_username (strip_ws v)) st.clients }, []) := by
  rw [handle_receive_some wsi _ ak st c hc]
  unfold handle_receive_client
  rw [ite_bcond_true _ (username_prefix_of_username v), drop9_username v]

/-- Claim C10: a username: frame stores, for the sending session of any
    role, the value with all leading spaces and tabs removed and truncated
    to at most 63 units, leaving role and history untouched and producing
    no output; a value of only spaces and tabs therefore sets the display
    name to the empty string, not Anonymous. -/
theorem C10_username_normalization (st : ServerState) (wsi : Nat) (v : Str)
    (ak : Bool) (c : Client) (hc : find_client wsi st.clients = Option.some c) :
    ((handle_receive wsi ("username:".data ++ v) ak st).2 = []) ∧
    ((handle_receive wsi ("username:".data ++ v) ak st).1.history = st.history) ∧
    (find_client wsi ((handle_receive wsi ("username:".data ++ v) ak st).1).clients =
      Option.some { c with
        username := (v.dropWhile (fun ch => ch == ' ' || ch == '\t')).take 63 }) ∧
    ((∀ ch ∈ v, ch = ' ' ∨ ch = '\t') →
      ((v.dropWhile (fun ch => ch == ' ' || ch == '\t')).take 63) = []) := by
  have key := handle_username_request wsi v ak st c hc
  refine ⟨?_, ?_, ?_, ?_⟩
  · rw [key]
  · rw [key]
  · rw [key]
    show find_client wsi (update_client wsi (set_username (strip_ws v)) st.clients) = _
    rw [find_client_update wsi (set_username (strip_ws v)) (fun cl => rfl) st.clients, hc]
    rfl
  · intro hall
    have hz : v.dropWhile (fun ch => ch == ' ' || ch == '\t') = [] :=
      List.dropWhile_eq_nil_iff.mpr (fun x hx => by
        rcases hall x hx with h | h <;> simp [h])
    rw [hz]
    rfl

/-- Witness for C10 at a concrete input: session 1 (role None) sets a
    username of three spaces; the stored display name becomes the empty
    string and nothing is sent. -/
theorem C10_username_normalization_witness :
    find_client 1 sampleSt.clients = Option.some clientB ∧
    (((handle_receive 1 ("username:".data ++ "   ".data) true sampleSt).2 = []) ∧
     ((handle_receive 1 ("username:".data ++ "   ".data) true sampleSt).1.history =
        sampleSt.history) ∧
     (find_client 1 ((handle_receive 1 ("username:".data ++ "   ".data) true sampleSt).1).clients =
        Option.some { wsi := 1, username := [], role := Role.none }) ∧
     ((∀ ch ∈ ("   ".data : Str), ch = ' ' ∨ ch = '\t') →
       ((("   ".data : Str).dropWhile (fun ch => ch == ' ' || ch == '\t')).take 63) = [])) :=
  ⟨by decide, C10_username_normalization sampleSt 1 ("   ".data) true clientB (by decide)⟩
